import Mathlib

/-!
Verification of the pycanrs CAN-bus interface abstraction.

The Rust source (src/lib.rs, src/message.rs) wraps the external python-can
library behind:
  - `PyCanBusType`: a closed configuration enum with four backend variants;
  - `PyCanInterface`: `new` (opens a bus and creates one Notifier with an
    empty listener tuple), `recv`, `send`, `register_rx_callback`;
  - `PyCanMessage` with a `Display` implementation;
  - `PyCanError`: a flat error enum with four kinds.

Foreign (Python) calls are embedded via explicit oracle environments that
fix the outcome of each foreign call, and a world state that records the
Notifier objects created so far together with their listener lists.
-/

/-! ## Message model (src/message.rs) -/

/-- The canonical in-process CAN frame, mirroring `PyCanMessage` in
src/message.rs.  The Rust `timestamp: Option<f64>` is modelled as an
optional rational: every finite double is a rational, and the display
claims only exercise exact decimal values. -/
structure PyCanMessage where
  arbitration_id : Nat
  data : Option (List Nat)
  dlc : Option Nat
  is_error_frame : Bool
  timestamp : Option Rat
deriving DecidableEq

/-- Uppercase hex digit for a value below 16, as produced by Rust's `X`
formatting. -/
def hexDigitChar (n : Nat) : Char :=
  if n < 10 then Char.ofNat (48 + n) else Char.ofNat (55 + n)

/-- Accumulator loop for uppercase hex rendering; `fuel` bounds recursion. -/
def hexUpperCore (fuel : Nat) (n : Nat) (acc : List Char) : List Char :=
  match fuel with
  | 0 => acc
  | fuel + 1 =>
    if n = 0 then acc
    else hexUpperCore fuel (n / 16) (hexDigitChar (n % 16) :: acc)

/-- Rust `{:X}` rendering of an unsigned integer: uppercase hex, no
leading zeros, `"0"` for zero. -/
def hexUpper (n : Nat) : String :=
  if n = 0 then "0" else String.mk (hexUpperCore (n + 1) n [])

/-- Rust `{:03X}` rendering: uppercase hex zero-padded to width at least 3,
used for the arbitration id in `Display for PyCanMessage`. -/
def hex3 (n : Nat) : String :=
  let s := hexUpper n
  String.mk (List.replicate (3 - s.length) '0') ++ s

/-- Rust `{:X?}` Debug rendering of a `u8` (used for `dlc`): uppercase hex
without padding. -/
def debugX_u8 (n : Nat) : String := hexUpper n

/-- Rust `{:X?}` Debug rendering of a `Vec<u8>` (used for `data`):
brackets around comma-space separated uppercase-hex bytes. -/
def debugX_bytes (bs : List Nat) : String :=
  "[" ++ String.intercalate ", " (bs.map hexUpper) ++ "]"

/-- Smallest exponent `k` (within `fuel`) with `d` dividing `10 ^ k`;
1076 fuel covers every denominator of a finite double. -/
def decimalExpCore (fuel : Nat) (d : Nat) (k : Nat) : Nat :=
  match fuel with
  | 0 => k
  | fuel + 1 => if 10 ^ k % d == 0 then k else decimalExpCore fuel d (k + 1)

/-- Rust `{:X?}` Debug rendering of an `f64` (used for `timestamp`; the
hex flag does not apply to floats, so this is plain Debug).  Modelled on
rationals that are exact finite decimals: shortest decimal digit string
with at least one fractional digit (`1.5`, `2.0`), with a sign for
negative values. -/
def debugX_f64 (q : Rat) : String :=
  let sign := if q < 0 then "-" else ""
  let n := q.num.natAbs
  let d := q.den
  let k := decimalExpCore 1076 d 0
  let digits := n * 10 ^ k / d
  let ip := digits / 10 ^ k
  let fp := digits % 10 ^ k
  let fs :=
    if k = 0 then "0"
    else String.mk (List.replicate (k - (Nat.repr fp).length) '0') ++ Nat.repr fp
  sign ++ Nat.repr ip ++ "." ++ fs

/-- `option_to_str` from src/message.rs: renders `Some v` via the type's
`{:X?}` Debug rendering `f`, and `None` as the literal string `"None"`. -/
def option_to_str (f : α → String) : Option α → String
  | some v => f v
  | none => "None"

/-- `impl Display for PyCanMessage` (src/message.rs lines 21-37): error
frames render `PyCanMessage: @<ts> ERROR FRAME`; normal frames render
`PyCanMessage: @<ts> | id=0x<:03X id> | dlc=<dlc> | data=<data>`. -/
def PyCanMessage.display (m : PyCanMessage) : String :=
  let data := option_to_str debugX_bytes m.data
  let dlc := option_to_str debugX_u8 m.dlc
  let timestamp := option_to_str debugX_f64 m.timestamp
  if m.is_error_frame then
    "PyCanMessage: @" ++ timestamp ++ " ERROR FRAME"
  else
    "PyCanMessage: @" ++ timestamp ++ " | id=0x" ++ hex3 m.arbitration_id ++
      " | dlc=" ++ dlc ++ " | data=" ++ data

/-- The rational 3/2 in normal form; equal to the literal `1.5` used in the
spec's display example. -/
def ts15 : Rat := Rat.mk' 3 2 (by decide) (by decide)

theorem ts15_eq : (1.5 : Rat) = ts15 := by
  rw [ts15, Rat.mk'_eq_divInt]; norm_num [Rat.divInt_eq_div]

example : debugX_f64 ts15 = "1.5" := by decide
example : debugX_f64 (Rat.mk' 2 1 (by decide) (by decide)) = "2.0" := by decide
example : hex3 0x7FF = "7FF" := by decide
example : debugX_bytes [0x01, 0x02] = "[1, 2]" := by decide
example :
    (PyCanMessage.mk 0x7FF (some [0x01, 0x02]) (some 2) false (some ts15)).display =
      "PyCanMessage: @1.5 | id=0x7FF | dlc=2 | data=[1, 2]" := by decide

/-! ## Bus configuration and error taxonomy (src/lib.rs) -/

/-- `PyCanBusType` (src/lib.rs lines 11-30): the closed set of backend
variants and their parameters. -/
inductive PyCanBusType where
  | Gsusb (bitrate : Nat) (usb_channel : String) (usb_bus : Nat) (usb_address : Nat)
  | Slcan (bitrate : Nat) (serial_port : String)
  | Socketcan (channel : String)
  | Socketcand (host : String) (channel : String) (port : Nat)
deriving DecidableEq

/-- `PyCanError` (src/lib.rs lines 47-57): flat error kinds, each carrying
the cause string of the failing backend call. -/
inductive PyCanError where
  | PythonCanImportFailed (cause : String)
  | FailedToCreateInterface (cause : String)
  | FailedToCreateNotifier (cause : String)
  | FailedToAddListener (cause : String)
deriving DecidableEq

/-- A keyword-argument value passed to a python-can call. -/
inductive PyArg where
  | str (s : String)
  | nat (n : Nat)
  | bytes (bs : List Nat)
deriving DecidableEq

/-- The kwargs dict built for `can.Bus` per backend variant
(src/lib.rs lines 70-147). -/
def busArgs : PyCanBusType → List (String × PyArg)
  | .Gsusb bitrate usb_channel usb_bus usb_address =>
    [("bustype", .str "gs_usb"), ("bitrate", .nat bitrate),
     ("channel", .str usb_channel), ("bus", .nat usb_bus),
     ("address", .nat usb_address)]
  | .Slcan bitrate serial_port =>
    [("bustype", .str "slcan"), ("channel", .str serial_port),
     ("bitrate", .nat bitrate)]
  | .Socketcan channel =>
    [("bustype", .str "socketcan"), ("channel", .str channel)]
  | .Socketcand host channel port =>
    [("bustype", .str "socketcand"), ("host", .str host),
     ("channel", .str channel), ("port", .nat port)]

/-! ## Interface and notifier bridge (src/lib.rs)

The Python runtime is embedded as (a) an oracle `PyEnv` fixing the outcome
of each foreign call, and (b) a world `PyWorld` recording every Notifier
object created so far with its current listener list.  Listener callbacks
are abstract values of a type `Cb`. -/

/-- A listener object as built by `register_rx_callback` (a dynamic class
with `on_message_received` and `on_error` methods).  `on_error = none`
models a listener whose dispatch errors are not observable by the caller. -/
structure PyListener (Cb : Type) where
  on_message_received : Cb
  on_error : Option Cb
deriving DecidableEq

/-- The Python-side state: the listener list of every Notifier created so
far, indexed by creation order. -/
structure PyWorld (Cb : Type) where
  notifiers : List (List (PyListener Cb))
deriving DecidableEq

/-- Oracle for the outcomes of the foreign calls made during interface
construction and listener registration: `import can`, `can.Bus(**kwargs)`,
`can.Notifier(bus, listeners=())`, `notifier.add_listener(l)`. -/
structure PyEnv where
  importCan : Except String Unit
  busNew : List (String × PyArg) → Except String Unit
  notifierNew : Except String Unit
  addListener : Except String Unit

/-- The handle returned by `PyCanInterface::new`: the stored `bustype` and
the index of the Notifier created for this interface (the opaque `iface`
and `pycan` Python handles carry no state our claims observe). -/
structure PyCanInterface where
  bustype : PyCanBusType
  notifier : Nat
deriving DecidableEq

/-- `can.Notifier.add_listener` (external python-can contract, as the spec
describes the "add listener" operation): append the listener to the given
notifier's listener list. -/
def PyWorld.addListener (w : PyWorld Cb) (nid : Nat) (l : PyListener Cb) :
    PyWorld Cb :=
  ⟨w.notifiers.set nid ((w.notifiers.getD nid []) ++ [l])⟩

/-- `PyCanInterface::new` (src/lib.rs lines 60-169): import python-can
(else `PythonCanImportFailed`); open the bus with the variant's kwargs
(else `FailedToCreateInterface`); create exactly one Notifier with an
empty listener tuple (else `FailedToCreateNotifier`); return the handle
storing the input `kind` and that notifier. -/
def PyCanInterface.new (env : PyEnv) (w : PyWorld Cb) (kind : PyCanBusType) :
    Except PyCanError (PyWorld Cb × PyCanInterface) :=
  match env.importCan with
  | .error e => .error (.PythonCanImportFailed e)
  | .ok _ =>
    match env.busNew (busArgs kind) with
    | .error e => .error (.FailedToCreateInterface e)
    | .ok _ =>
      match env.notifierNew with
      | .error e => .error (.FailedToCreateNotifier e)
      | .ok _ =>
        .ok (⟨w.notifiers ++ [[]]⟩, ⟨kind, w.notifiers.length⟩)

/-- `PyCanInterface::register_rx_callback` (src/lib.rs lines 203-295):
build the rx and on_error shims, synthesize a listener class carrying
both, and add an instance to the interface's (already existing) notifier;
the only fallible returned step is `add_listener`, mapped to
`FailedToAddListener`. -/
def PyCanInterface.register_rx_callback (env : PyEnv) (w : PyWorld Cb)
    (self : PyCanInterface) (on_rx on_error : Cb) :
    Except PyCanError (PyWorld Cb) :=
  let listener : PyListener Cb := ⟨on_rx, some on_error⟩
  match env.addListener with
  | .error e => .error (.FailedToAddListener e)
  | .ok _ => .ok (w.addListener self.notifier listener)

/-- Modelled from the spec: `recv_spawn` is absent from src/lib.rs (only
its caller in examples/basic_dump_slcan.rs appears).  Per the spec it is a
convenience form taking only a success callback, registered against the
interface's notifier, with dispatch errors not observable by the caller
(listener `on_error = none`). -/
def PyCanInterface.recv_spawn (env : PyEnv) (w : PyWorld Cb)
    (self : PyCanInterface) (on_rx : Cb) : Except PyCanError (PyWorld Cb) :=
  match env.addListener with
  | .error e => .error (.FailedToAddListener e)
  | .ok _ => .ok (w.addListener self.notifier ⟨on_rx, none⟩)

/-- Callbacks a dispatch-loop error is delivered to for a listener: the
error callback when one is attached, none otherwise. -/
def notifyError (l : PyListener Cb) : List Cb :=
  match l.on_error with
  | some cb => [cb]
  | none => []

/-- A sequence of `register_rx_callback` calls on one interface, each with
an (on_rx, on_error) pair, threading the Python world through. -/
def registerSeq (env : PyEnv) (self : PyCanInterface) :
    PyWorld Cb → List (Cb × Cb) → Except PyCanError (PyWorld Cb)
  | w, [] => .ok w
  | w, c :: cs =>
    match PyCanInterface.register_rx_callback env w self c.1 c.2 with
    | .error e => .error e
    | .ok w' => registerSeq env self w' cs

/-! ## recv / send (src/lib.rs lines 171-199) -/

/-- Outcome of a `recv`/`send` call for the caller: either a normal return
or a fatal call failure (in the Rust source, a panicking `.unwrap()` on a
foreign-call error). -/
inductive CallResult (α : Type) where
  | ok (val : α)
  | fatal (cause : String)
deriving DecidableEq

/-- The frame handed to the transport by `send`: a python-can `Message`
built from kwargs. -/
structure CanTxFrame where
  arbitration_id : Nat
  data : List Nat
  dlc : Nat
deriving DecidableEq

/-- Oracle for the outcomes of the foreign calls made by `recv` and
`send`: `self.iface.recv()`, `self.pycan.Message(**kwargs)`, and
`self.iface.send(msg)`. -/
structure TxEnv where
  recvCall : Except String PyCanMessage
  msgNew : Except String Unit
  sendCall : CanTxFrame → Except String Unit

/-- The kwargs dict built for `can.Message` in `send`
(src/lib.rs lines 183-188): arbitration_id, data, and dlc computed as
`data.len()`; there is no independent dlc argument and no length check. -/
def send_kwargs (id : Nat) (data : List Nat) : List (String × PyArg) :=
  [("arbitration_id", .nat id), ("data", .bytes data),
   ("dlc", .nat data.length)]

/-- External `can.Message` constructor reading its kwargs (defaults for
absent keys; python-can's Message defaults id to 0 and data to empty). -/
def mkMessage (kwargs : List (String × PyArg)) : CanTxFrame :=
  let nat? := fun key => match kwargs.lookup key with
    | some (PyArg.nat n) => some n
    | _ => none
  let bytes? := fun key => match kwargs.lookup key with
    | some (PyArg.bytes bs) => some bs
    | _ => none
  ⟨(nat? "arbitration_id").getD 0, (bytes? "data").getD [],
   (nat? "dlc").getD 0⟩

/-- `PyCanInterface::recv` (src/lib.rs lines 171-179): call the
transport's `recv` and unwrap — a transport error is fatal to the caller,
never a returned frame. -/
def PyCanInterface.recv (env : TxEnv) (_self : PyCanInterface) :
    CallResult PyCanMessage :=
  match env.recvCall with
  | .error e => .fatal e
  | .ok m => .ok m

/-- `PyCanInterface::send` (src/lib.rs lines 181-199): build the Message
from `send_kwargs`, then transmit it synchronously; each foreign-call
error is unwrapped, i.e. fatal to the caller.  On success the result
carries the transmitted frame. -/
def PyCanInterface.send (env : TxEnv) (_self : PyCanInterface)
    (id : Nat) (data : List Nat) : CallResult CanTxFrame :=
  let msg := mkMessage (send_kwargs id data)
  match env.msgNew with
  | .error e => .fatal e
  | .ok _ =>
    match env.sendCall msg with
    | .error e => .fatal e
    | .ok _ => .ok msg

/-! ## Operation sequences over one interface (for the immutability
invariant): every method takes `&self`, so the interface record — in
particular its stored `bustype` — survives each call unchanged; only the
Python world (listener registrations) evolves. -/

/-- One interface operation with its arguments. -/
inductive IfaceOp (Cb : Type) where
  | recvOp
  | sendOp (id : Nat) (data : List Nat)
  | registerOp (on_rx on_error : Cb)

/-- Apply one operation to the (world, interface) pair.  `recv`/`send`
touch neither the interface record nor the listener state;
`register_rx_callback` may extend the listener state.  The interface is
returned as the `&self` borrow hands it back. -/
def applyOp (env : PyEnv) (s : PyWorld Cb × PyCanInterface) :
    IfaceOp Cb → PyWorld Cb × PyCanInterface
  | .recvOp => s
  | .sendOp _ _ => s
  | .registerOp rx er =>
    match PyCanInterface.register_rx_callback env s.1 s.2 rx er with
    | .ok w' => (w', s.2)
    | .error _ => s

/-! ## Concrete fixtures shared by the witness theorems -/

/-- A sample configuration: the slcan backend on /dev/ttyUSB0. -/
def kind0 : PyCanBusType := .Slcan 1000000 "/dev/ttyUSB0"

/-- Oracle in which every python-can call succeeds. -/
def envOK : PyEnv :=
  ⟨.ok (), fun _ => .ok (), .ok (), .ok ()⟩

/-- Oracle in which `import can` fails. -/
def envImportFail : PyEnv :=
  ⟨.error "boom", fun _ => .ok (), .ok (), .ok ()⟩

/-- Oracle in which the backend rejects the bus parameters. -/
def envBusFail : PyEnv :=
  ⟨.ok (), fun _ => .error "bad port", .ok (), .ok ()⟩

/-- A sample interface handle as produced by a successful `new` on an
empty world. -/
def ifc0 : PyCanInterface := ⟨kind0, 0⟩

/-- recv/send oracle in which every foreign call succeeds. -/
def envTxOK : TxEnv :=
  ⟨.ok ⟨0x123, some [0xDE, 0xAD, 0xBE, 0xEF], some 4, false, some ts15⟩,
   .ok (), fun _ => .ok ()⟩

/-- recv/send oracle in which the transport reports an I/O error on both
receive and transmit. -/
def envTxFail : TxEnv :=
  ⟨.error "io down", .ok (), fun _ => .error "io down"⟩

/-! ## Claim theorems -/

/-- `getD` at the index of the last element of an appended singleton. -/
theorem getD_append_length (w0 : List α) (x d : α) :
    (w0 ++ [x]).getD w0.length d = x := by
  induction w0 with
  | nil => rfl
  | cons a as ih => simp [ih]

/-- `set` at the index of the last element of an appended singleton. -/
theorem set_append_length (w0 : List α) (x y : α) :
    (w0 ++ [x]).set w0.length y = w0 ++ [y] := by
  induction w0 with
  | nil => rfl
  | cons a as ih => simp [List.set, ih]

/-- The listener record a `register_rx_callback` call builds from an
(on_rx, on_error) pair. -/
def mkRegListener (c : Cb × Cb) : PyListener Cb := ⟨c.1, some c.2⟩

/-- Shape of the world after a successful registration sequence on an
interface whose notifier is the last (freshly created) one: all listeners
accumulate, in order, on that notifier; no notifier is created or
removed. -/
theorem registerSeq_shape (env : PyEnv) (self : PyCanInterface)
    (w0 : List (List (PyListener Cb))) (hn : self.notifier = w0.length) :
    ∀ (cbs : List (Cb × Cb)) (ls : List (PyListener Cb)) (w₂ : PyWorld Cb),
      registerSeq env self ⟨w0 ++ [ls]⟩ cbs = .ok w₂ →
      w₂ = ⟨w0 ++ [ls ++ cbs.map mkRegListener]⟩ := by
  intro cbs
  induction cbs with
  | nil =>
    intro ls w₂ h
    simp only [registerSeq] at h
    cases h
    simp
  | cons c cs ih =>
    intro ls w₂ h
    cases hal : env.addListener with
    | error e =>
      simp [registerSeq, PyCanInterface.register_rx_callback, hal] at h
    | ok u =>
      simp only [registerSeq, PyCanInterface.register_rx_callback, hal,
        PyWorld.addListener, hn, getD_append_length, set_append_length] at h
      have := ih (ls ++ [⟨c.1, some c.2⟩]) w₂ h
      simpa [mkRegListener] using this

/-- Every single operation hands the interface record back unchanged
(`&self` receiver). -/
theorem applyOp_preserves_iface (env : PyEnv)
    (s : PyWorld Cb × PyCanInterface) (op : IfaceOp Cb) :
    (applyOp env s op).2 = s.2 := by
  cases op with
  | recvOp => rfl
  | sendOp id data => rfl
  | registerOp rx er =>
    simp only [applyOp]
    split <;> rfl

/-- C1: `new` creates exactly one notifier, with an empty listener set, at
construction time; every subsequent `register_rx_callback` adds its
listener to that same notifier via `add_listener`, so after any successful
sequence of registrations all callbacks sit, in order, on the single
notifier created at construction and no further notifier exists. -/
theorem C1_lazy_notifier (Cb : Type) (env : PyEnv) (w : PyWorld Cb)
    (kind : PyCanBusType) (w₁ : PyWorld Cb) (iface : PyCanInterface)
    (hnew : PyCanInterface.new env w kind = .ok (w₁, iface)) :
    (w₁.notifiers = w.notifiers ++ [[]] ∧
      iface.notifier = w.notifiers.length) ∧
    ∀ (cbs : List (Cb × Cb)) (w₂ : PyWorld Cb),
      registerSeq env iface w₁ cbs = .ok w₂ →
      w₂.notifiers = w.notifiers ++ [cbs.map mkRegListener] := by
  cases him : env.importCan <;> cases hbus : env.busNew (busArgs kind) <;>
    cases hnot : env.notifierNew <;>
    simp [PyCanInterface.new, him, hbus, hnot] at hnew
  obtain ⟨hw, hi⟩ := hnew
  subst hw hi
  refine ⟨⟨rfl, rfl⟩, fun cbs w₂ h => ?_⟩
  have := registerSeq_shape env ⟨kind, w.notifiers.length⟩ w.notifiers rfl
    cbs [] w₂ h
  simp [this]

/-- Witness for C1: on an empty Python world, `new` creates notifier 0
with no listeners, and two registrations leave both listeners, in order,
on that same notifier. -/
theorem C1_lazy_notifier_witness :
    ((⟨[[]]⟩ : PyWorld Nat).notifiers = [] ++ [[]] ∧
      (ifc0 : PyCanInterface).notifier = ([] : List (List (PyListener Nat))).length) ∧
    (⟨[[⟨1, some 2⟩, ⟨3, some 4⟩]]⟩ : PyWorld Nat).notifiers =
      [] ++ [[(1, 2), (3, 4)].map mkRegListener] := by
  have h := C1_lazy_notifier Nat envOK ⟨[]⟩ kind0 ⟨[[]]⟩ ifc0 rfl
  exact ⟨h.1, h.2 [(1, 2), (3, 4)] ⟨[[⟨1, some 2⟩, ⟨3, some 4⟩]]⟩ rfl⟩

/-- C2: a successful `new kind` stores `kind` as the interface's
`bustype`, and no sequence of subsequent operations (recv, send,
register_rx_callback) changes the interface record, hence its stored
configuration. -/
theorem C2_bustype_immutable (Cb : Type) (env : PyEnv) (w : PyWorld Cb)
    (kind : PyCanBusType) (w₁ : PyWorld Cb) (iface : PyCanInterface)
    (hnew : PyCanInterface.new env w kind = .ok (w₁, iface)) :
    iface.bustype = kind ∧
    ∀ ops : List (IfaceOp Cb),
      (ops.foldl (applyOp env) (w₁, iface)).2 = iface ∧
      (ops.foldl (applyOp env) (w₁, iface)).2.bustype = kind := by
  have hbt : iface.bustype = kind := by
    cases him : env.importCan <;> cases hbus : env.busNew (busArgs kind) <;>
      cases hnot : env.notifierNew <;>
      simp [PyCanInterface.new, him, hbus, hnot] at hnew
    obtain ⟨hw, hi⟩ := hnew
    subst hi
    rfl
  have hfold : ∀ (ops : List (IfaceOp Cb)) (s : PyWorld Cb × PyCanInterface),
      (ops.foldl (applyOp env) s).2 = s.2 := by
    intro ops
    induction ops with
    | nil => intro s; rfl
    | cons op rest ih =>
      intro s
      simp only [List.foldl_cons, ih, applyOp_preserves_iface]
  refine ⟨hbt, fun ops => ?_⟩
  have h := hfold ops (w₁, iface)
  exact ⟨h, by rw [h, hbt]⟩

/-- Witness for C2: a fresh interface keeps its slcan configuration
through a recv, a send, and a registration. -/
theorem C2_bustype_immutable_witness :
    (ifc0 : PyCanInterface).bustype = kind0 ∧
    (([IfaceOp.recvOp, IfaceOp.sendOp 1 [2], IfaceOp.registerOp 5 6].foldl
        (applyOp envOK) ((⟨[[]]⟩ : PyWorld Nat), ifc0)).2 = ifc0 ∧
      ([IfaceOp.recvOp, IfaceOp.sendOp 1 [2], IfaceOp.registerOp 5 6].foldl
        (applyOp envOK) ((⟨[[]]⟩ : PyWorld Nat), ifc0)).2.bustype = kind0) := by
  have h := C2_bustype_immutable Nat envOK ⟨[]⟩ kind0 ⟨[[]]⟩ ifc0 rfl
  exact ⟨h.1, h.2 [IfaceOp.recvOp, IfaceOp.sendOp 1 [2], IfaceOp.registerOp 5 6]⟩

/-- C4: for every message with `is_error_frame` false, `Display` renders
`PyCanMessage: @<timestamp> | id=0x<3-hex-digit id> | dlc=<dlc> |
data=<hex bytes>`; in particular the spec's example message with id 0x7FF,
data [0x01, 0x02], dlc 2 and timestamp 1.5 renders exactly as
`PyCanMessage: @1.5 | id=0x7FF | dlc=2 | data=[1, 2]` (see witness). -/
theorem C4_display_normal_format (m : PyCanMessage)
    (h : m.is_error_frame = false) :
    m.display =
      "PyCanMessage: @" ++ option_to_str debugX_f64 m.timestamp ++
        " | id=0x" ++ hex3 m.arbitration_id ++ " | dlc=" ++
        option_to_str debugX_u8 m.dlc ++ " | data=" ++
        option_to_str debugX_bytes m.data := by
  simp [PyCanMessage.display, h]

/-- Witness for C4 at the spec's example message. -/
theorem C4_display_normal_format_witness :
    (PyCanMessage.mk 0x7FF (some [0x01, 0x02]) (some 2) false
        (some (1.5 : Rat))).display =
      "PyCanMessage: @1.5 | id=0x7FF | dlc=2 | data=[1, 2]" := by
  rw [ts15_eq]
  exact (C4_display_normal_format _ rfl).trans (by decide)

/-- C5: every message with `is_error_frame` true renders
`PyCanMessage: @<ts> ERROR FRAME`, and two error-frame messages differing
only in `data`/`dlc` display identically. -/
theorem C5_display_error_frame (m₁ m₂ : PyCanMessage)
    (h₁ : m₁.is_error_frame = true) (h₂ : m₂.is_error_frame = true)
    (hid : m₁.arbitration_id = m₂.arbitration_id)
    (hts : m₁.timestamp = m₂.timestamp) :
    m₁.display =
      "PyCanMessage: @" ++ option_to_str debugX_f64 m₁.timestamp ++
        " ERROR FRAME" ∧
    m₁.display = m₂.display := by
  constructor
  · simp [PyCanMessage.display, h₁]
  · simp [PyCanMessage.display, h₁, h₂, hts]

/-- Witness for C5: an error frame with payload renders without it, and
changing data/dlc does not change the rendering. -/
theorem C5_display_error_frame_witness :
    (PyCanMessage.mk 0x123 (some [0xAA]) (some 1) true (some ts15)).display =
        "PyCanMessage: @1.5 ERROR FRAME" ∧
      (PyCanMessage.mk 0x123 (some [0xAA]) (some 1) true (some ts15)).display =
        (PyCanMessage.mk 0x123 (some [0xBB, 0xCC]) (some 2) true
            (some ts15)).display := by
  have h := C5_display_error_frame
    (PyCanMessage.mk 0x123 (some [0xAA]) (some 1) true (some ts15))
    (PyCanMessage.mk 0x123 (some [0xBB, 0xCC]) (some 2) true (some ts15))
    rfl rfl rfl rfl
  exact ⟨h.1.trans (by decide), h.2⟩

/-- C6: an absent optional field renders as the literal `None` in its
position: `option_to_str` maps `none` to `"None"` for every renderer, and
a message with all optional fields absent shows `None` at the timestamp,
dlc and data positions. -/
theorem C6_display_none_markers :
    (∀ (α : Type) (f : α → String), option_to_str f (none : Option α) = "None") ∧
    (∀ m : PyCanMessage, m.is_error_frame = false → m.data = none →
      m.dlc = none → m.timestamp = none →
      m.display =
        "PyCanMessage: @" ++ "None" ++ " | id=0x" ++ hex3 m.arbitration_id ++
          " | dlc=" ++ "None" ++ " | data=" ++ "None") ∧
    (PyCanMessage.mk 0x7FF none none false none).display =
        "PyCanMessage: @None | id=0x7FF | dlc=None | data=None" ∧
    (PyCanMessage.mk 0x7FF none none true none).display =
        "PyCanMessage: @None ERROR FRAME" := by
  refine ⟨fun α f => rfl, fun m hef hdata hdlc hts => ?_, by decide, by decide⟩
  simp [PyCanMessage.display, hef, hdata, hdlc, hts, option_to_str]

/-- Witness for C6 at a message with all optional fields absent. -/
theorem C6_display_none_markers_witness :
    (PyCanMessage.mk 0x042 none none false none).display =
      "PyCanMessage: @" ++ "None" ++ " | id=0x" ++ hex3 0x042 ++
        " | dlc=" ++ "None" ++ " | data=" ++ "None" :=
  C6_display_none_markers.2.1 (PyCanMessage.mk 0x042 none none false none)
    rfl rfl rfl rfl

/-- C3: `send(id, data)` builds the outgoing frame with arbitration id
`id`, payload `data`, and dlc computed as the payload's length (for any
length, with no separate dlc argument and no validation), and transmits
exactly that frame when the transport accepts it. -/
theorem C3_send_computes_dlc (env : TxEnv) (self : PyCanInterface)
    (id : Nat) (data : List Nat)
    (hmsg : env.msgNew = .ok ())
    (hsend : env.sendCall (mkMessage (send_kwargs id data)) = .ok ()) :
    mkMessage (send_kwargs id data) = ⟨id, data, data.length⟩ ∧
    PyCanInterface.send env self id data = .ok ⟨id, data, data.length⟩ := by
  have h1 : mkMessage (send_kwargs id data) = ⟨id, data, data.length⟩ := rfl
  rw [h1] at hsend
  refine ⟨h1, ?_⟩
  simp only [PyCanInterface.send, hmsg, h1, hsend]

/-- Witness for C3 at the spec's round-trip example: id 0x123 and a
4-byte payload give dlc 4. -/
theorem C3_send_computes_dlc_witness :
    mkMessage (send_kwargs 0x123 [0xDE, 0xAD, 0xBE, 0xEF]) =
        ⟨0x123, [0xDE, 0xAD, 0xBE, 0xEF], 4⟩ ∧
      PyCanInterface.send envTxOK ifc0 0x123 [0xDE, 0xAD, 0xBE, 0xEF] =
        .ok ⟨0x123, [0xDE, 0xAD, 0xBE, 0xEF], 4⟩ :=
  C3_send_computes_dlc envTxOK ifc0 0x123 [0xDE, 0xAD, 0xBE, 0xEF] rfl rfl

/-- C7: `new` fails with `PythonCanImportFailed` (carrying the backend's
cause) exactly when importing python-can fails, and with
`FailedToCreateInterface` (carrying the backend's cause) exactly when
the import succeeded but the backend rejected the bus parameters; an
`error` result carries no handle. -/
theorem C7_new_error_kinds (Cb : Type) (env : PyEnv) (w : PyWorld Cb)
    (kind : PyCanBusType) (e : String) :
    (PyCanInterface.new env w kind = .error (.PythonCanImportFailed e) ↔
      env.importCan = .error e) ∧
    (PyCanInterface.new env w kind = .error (.FailedToCreateInterface e) ↔
      env.importCan = .ok () ∧ env.busNew (busArgs kind) = .error e) := by
  cases him : env.importCan <;> cases hbus : env.busNew (busArgs kind) <;>
    cases hnot : env.notifierNew <;>
    simp [PyCanInterface.new, him, hbus, hnot]

/-- Witness for C7: both failing oracles produce exactly the claimed
error kinds. -/
theorem C7_new_error_kinds_witness :
    PyCanInterface.new envImportFail (⟨[]⟩ : PyWorld Nat) kind0 =
        .error (.PythonCanImportFailed "boom") ∧
      PyCanInterface.new envBusFail (⟨[]⟩ : PyWorld Nat) kind0 =
        .error (.FailedToCreateInterface "bad port") :=
  ⟨(C7_new_error_kinds Nat envImportFail ⟨[]⟩ kind0 "boom").1.mpr rfl,
   (C7_new_error_kinds Nat envBusFail ⟨[]⟩ kind0 "bad port").2.mpr ⟨rfl, rfl⟩⟩

/-- C8: a transport error during `recv` or during the transmit step of
`send` makes the call itself fail for the caller (the Rust `.unwrap()`
panics), instead of returning a frame or succeeding silently. -/
theorem C8_transport_error_fatal (env : TxEnv) (self : PyCanInterface)
    (id : Nat) (data : List Nat) (e : String) :
    (env.recvCall = .error e →
      PyCanInterface.recv env self = .fatal e) ∧
    (env.msgNew = .ok () →
      env.sendCall (mkMessage (send_kwargs id data)) = .error e →
      PyCanInterface.send env self id data = .fatal e) := by
  constructor
  · intro h
    simp [PyCanInterface.recv, h]
  · intro h1 h2
    simp only [PyCanInterface.send, h1, h2]

/-- Witness for C8 with a transport reporting an I/O error on both
directions. -/
theorem C8_transport_error_fatal_witness :
    PyCanInterface.recv envTxFail ifc0 = .fatal "io down" ∧
      PyCanInterface.send envTxFail ifc0 1 [2] = .fatal "io down" := by
  have h := C8_transport_error_fatal envTxFail ifc0 1 [2] "io down"
  exact ⟨h.1 rfl, h.2 rfl rfl⟩

/-- C9: `recv_spawn(on_rx)` takes only a success callback; the listener
it registers carries `on_rx` as its message callback and no error
callback, so dispatch errors reach no caller-observable callback. -/
theorem C9_recv_spawn_no_error_callback (Cb : Type) (env : PyEnv)
    (w : PyWorld Cb) (self : PyCanInterface) (on_rx : Cb) (w' : PyWorld Cb)
    (h : PyCanInterface.recv_spawn env w self on_rx = .ok w') :
    w' = w.addListener self.notifier ⟨on_rx, none⟩ ∧
    notifyError (PyListener.mk on_rx (none : Option Cb)) = [] := by
  cases hal : env.addListener <;>
    simp [PyCanInterface.recv_spawn, hal] at h
  exact ⟨h.symm, rfl⟩

/-- Witness for C9: spawning a receive callback on a fresh interface. -/
theorem C9_recv_spawn_no_error_callback_witness :
    PyCanInterface.recv_spawn envOK (⟨[[]]⟩ : PyWorld Nat) ifc0 7 =
        .ok ⟨[[⟨7, none⟩]]⟩ ∧
      notifyError (PyListener.mk 7 (none : Option Nat)) = [] :=
  ⟨rfl,
   (C9_recv_spawn_no_error_callback Nat envOK ⟨[[]]⟩ ifc0 7 ⟨[[⟨7, none⟩]]⟩
      rfl).2⟩

/-- C10: `register_rx_callback` either succeeds or fails with
`FailedToAddListener`; no other error kind (import, interface creation,
notifier creation) is reachable, the notifier having been created during
`new`. -/
theorem C10_register_only_listener_failure (Cb : Type) (env : PyEnv)
    (w : PyWorld Cb) (self : PyCanInterface) (on_rx on_error : Cb) :
    (∃ w', PyCanInterface.register_rx_callback env w self on_rx on_error =
        .ok w') ∨
    (∃ e, PyCanInterface.register_rx_callback env w self on_rx on_error =
        .error (.FailedToAddListener e)) := by
  cases hal : env.addListener <;>
    simp [PyCanInterface.register_rx_callback, hal]
